import Mathlib

set_option autoImplicit false

/-!
Verification model of the onvif-server repository (main.js and
src/discovery-server.js), shallowly embedded in Lean 4.

The discovery server (src/discovery-server.js) keeps a JS `Map` from device
uuid to a message counter, answers WS-Discovery probes with one ProbeMatch
per registered device, and joins the multicast group once per distinct host
IP.  main.js starts one virtual onvif server per configured device
sequentially with a 2 second delay, collects TCP proxy routes, and then
starts one discovery server for all devices.
-/

/-- Modelled from the spec: the discovery information a virtual device
exposes through `getDiscoveryInfo()` (onvif-server.js is not under src/):
its caller-supplied device UUID, the host IP resolved from its MAC address,
and its server port. -/
structure ServerInfo where
  uuid : String
  hostname : String
  port : Nat
deriving DecidableEq, Repr

/-- The source address and port of an inbound UDP datagram (`remote`). -/
structure Remote where
  address : String
  port : Nat
deriving DecidableEq, Repr

/-- A field of the xml2js parse result: either a plain string or an object
whose `_` property (the text content) may be absent (absent text models the
JS value `undefined`). -/
inductive XField where
  | str (s : String)
  | obj (text : Option String)
deriving DecidableEq, Repr

/-- The parts of the xml2js parse result read by the message handler.
`messageID = none` models the path `Envelope.Header[0].MessageID[0]`
throwing (some level missing); `types = none` models the path
`Envelope.Body[0].Probe[0].Types[0]` throwing, which the source catches. -/
structure ProbeEnvelope where
  messageID : Option XField
  types : Option XField
deriving DecidableEq, Repr

/-- `if (typeof v === 'object') v = v._;` — a plain string is kept, an
object is replaced by its text content (possibly `undefined`). -/
def normField : XField → Option String
  | .str s => some s
  | .obj t => t

/-- Extraction of the probe type: the guarded access defaults to the empty
string when the path throws, then the dual-representation normalisation is
applied.  `none` models the JS value `undefined`. -/
def normTypes (o : Option XField) : Option String :=
  normField (o.getD (XField.str ""))

/-- Whether `pat` is an initial segment of `cs`. -/
def leadsWith : List Char → List Char → Bool
  | [], _ => true
  | _ :: _, [] => false
  | p :: ps, c :: cs => p == c && leadsWith ps cs

/-- Whether `pat` occurs contiguously somewhere in `cs`. -/
def subOccurs (pat : List Char) : List Char → Bool
  | [] => pat.isEmpty
  | c :: cs => leadsWith pat (c :: cs) || subOccurs pat cs

/-- `probeType.indexOf(pat) > -1` — substring containment. -/
def jsContains (s pat : String) : Bool :=
  subOccurs pat.data s.data

/-- The probe filter: `probeType === '' || probeType.indexOf('NetworkVideoTransmitter') > -1`. -/
def probeAccepted (t : String) : Bool :=
  t == "" || jsContains t "NetworkVideoTransmitter"

/-- The JS `Map` from device uuid to message counter.  The stored value is
an `Option Nat`: `none` models a stored non-number (`NaN`). -/
abbrev CounterMap : Type := List (String × Option Nat)

/-- `Map.get(k)`: `none` when the key is absent (JS `undefined`) or the
stored value is a non-number. -/
def jsGet (m : CounterMap) (k : String) : Option Nat :=
  match m.find? (fun p => p.1 == k) with
  | none => none
  | some p => p.2

/-- `Map.set(k, v)`: replaces the value in place if the key is present,
appends the entry otherwise (JS `Map` keeps insertion order). -/
def jsSet (m : CounterMap) (k : String) (v : Option Nat) : CounterMap :=
  match m with
  | [] => [(k, v)]
  | p :: rest => if p.1 == k then (k, v) :: rest else p :: jsSet rest k v

/-- One composed ProbeMatch datagram, with its destination and the socket
it is sent on.  The fresh random `MessageID` (uuid.v1) and the constant
`Scopes` block of the response template are not modelled. -/
structure ProbeMatch where
  relatesTo : String
  endpointAddress : String
  typesField : String
  xaddrs : String
  metadataVersion : Nat
  instanceId : Nat
  messageNumber : Option Nat
  destAddress : String
  destPort : Nat
  viaResponseSocket : Bool
deriving DecidableEq, Repr

/-- The ProbeMatch composed for one device inside the `servers.forEach`
loop of the message handler. -/
def mkProbeMatch (remote : Remote) (relatesTo : String) (s : ServerInfo)
    (msgNo : Option Nat) : ProbeMatch :=
  { relatesTo := relatesTo
    endpointAddress := "urn:uuid:" ++ s.uuid
    typesField := "dn:NetworkVideoTransmitter"
    xaddrs := "http://" ++ s.hostname ++ ":" ++ toString s.port ++ "/onvif/device_service"
    metadataVersion := 1
    instanceId := 1234567890
    messageNumber := msgNo
    destAddress := remote.address
    destPort := remote.port
    viaResponseSocket := true }

/-- The `servers.forEach` loop: for each registered device in registration
order, read its counter, compose a ProbeMatch carrying it, store the
incremented counter, and send the datagram on the response socket. -/
def respondAll (remote : Remote) (relatesTo : String) :
    List ServerInfo → CounterMap → List ProbeMatch × CounterMap
  | [], m => ([], m)
  | s :: rest, m =>
    let msgNo := jsGet m s.uuid
    let pm := mkProbeMatch remote relatesTo s msgNo
    let next := respondAll remote relatesTo rest (jsSet m s.uuid (msgNo.map (fun n => n + 1)))
    (pm :: next.1, next.2)

/-- Outcome of handling one inbound datagram.  `parseFailure` is the xml2js
error branch (logged at trace level, nothing sent); `thrown` is an
exception escaping the handler (in the running program it is caught only by
the process-level uncaughtException handler installed in main.js);
`ignored` is a filtered-out probe (nothing sent, no error). -/
inductive MsgOutcome where
  | parseFailure
  | thrown
  | ignored
  | responded (ms : List ProbeMatch)
deriving DecidableEq, Repr

/-- State of a DiscoveryServer instance: the registered devices, the
message-counter map, and whether the receive and send sockets are open
(`false` models a `null` reference). -/
structure DiscoveryState where
  servers : List ServerInfo
  messageCounters : CounterMap
  socketOpen : Bool
  responseSocketOpen : Bool
deriving DecidableEq, Repr

namespace DiscoveryServer

/-- The DiscoveryServer constructor: stores the device list and initialises
one message counter to 0 per device uuid; both sockets are still null. -/
def create (servers : List ServerInfo) : DiscoveryState :=
  { servers := servers
    messageCounters := servers.foldl (fun m s => jsSet m s.uuid (some 0)) []
    socketOpen := false
    responseSocketOpen := false }

/-- The `socket.on('message')` handler: parse failure is dropped, the
message ID and type filter are extracted with dual-representation
tolerance, the filter decides whether to respond, and an accepted probe
produces one ProbeMatch per registered device while incrementing the
per-device counters. -/
def handleMessage (st : DiscoveryState) (parsed : Option ProbeEnvelope)
    (remote : Remote) : MsgOutcome × CounterMap :=
  match parsed with
  | none => (.parseFailure, st.messageCounters)
  | some env =>
    match env.messageID with
    | none => (.thrown, st.messageCounters)
    | some uuidField =>
      match normTypes env.types with
      | none => (.thrown, st.messageCounters)
      | some probeType =>
        let probeUuid := (normField uuidField).getD "undefined"
        if probeAccepted probeType then
          let next := respondAll remote probeUuid st.servers st.messageCounters
          (.responded next.1, next.2)
        else
          (.ignored, st.messageCounters)

/-- `new Set()` insertion: add only when absent, keeping insertion order. -/
def setAdd (s : List String) (x : String) : List String :=
  if x ∈ s then s else s ++ [x]

/-- The `hostnames` Set built in the bind callback: the hostname of every
registered device, skipping falsy (empty) hostnames, deduplicated. -/
def collectHostnames (servers : List ServerInfo) : List String :=
  servers.foldl (fun s srv => if srv.hostname = "" then s else setAdd s srv.hostname) []

/-- Effects of `start()` observable at the network layer: the port the
receive socket is bound to, and one multicast join attempt per collected
hostname.  `joinFails h = true` models `addMembership` throwing for `h`;
the source catches it per hostname and logs, so the attempt yields
`(h, false)` and the loop continues. -/
structure StartResult where
  boundPort : Nat
  joinAttempts : List (String × Bool)
deriving DecidableEq, Repr

/-- `start()`: opens both sockets, binds the receive socket to 3702, and in
the bind callback attempts one multicast join per distinct device
hostname. -/
def start (st : DiscoveryState) (joinFails : String → Bool) :
    DiscoveryState × StartResult :=
  ({ st with socketOpen := true, responseSocketOpen := true },
   { boundPort := 3702
     joinAttempts := (collectHostnames st.servers).map (fun h => (h, !joinFails h)) })

/-- `stop()`: close each socket that is non-null and null it; the returned
list names the sockets actually closed. -/
def stop (st : DiscoveryState) : DiscoveryState × List String :=
  let a :=
    if st.socketOpen then
      ({ st with socketOpen := false }, ["socket"])
    else (st, [])
  let b :=
    if a.1.responseSocketOpen then
      ({ a.1 with responseSocketOpen := false }, ["responseSocket"])
    else (a.1, [])
  (b.1, a.2 ++ b.2)

end DiscoveryServer

/-! ## main.js: the startup orchestration -/

/-- The `ports` block of one device configuration (`server` is mandatory,
`rtsp`/`snapshot` may be absent). -/
structure PortsCfg where
  server : Nat
  rtsp : Option Nat
  snapshot : Option Nat
deriving DecidableEq, Repr

/-- The `target.ports` block of one device configuration. -/
structure TargetPorts where
  rtsp : Option Nat
  snapshot : Option Nat
deriving DecidableEq, Repr

/-- The `target` block of one device configuration. -/
structure TargetCfg where
  hostname : String
  ports : TargetPorts
deriving DecidableEq, Repr

/-- One entry of `config.onvif`. -/
structure OnvifConfig where
  name : String
  mac : String
  uuid : String
  ports : PortsCfg
  target : TargetCfg
deriving DecidableEq, Repr

/-- One entry of the `proxies` list built by main.js. -/
structure Proxy where
  sourceHostname : String
  sourcePort : Nat
  targetHostname : String
  targetPort : Nat
deriving DecidableEq, Repr

/-- JS truthiness of an optional port number (`undefined` and `0` are
falsy). -/
def jsTruthyNat : Option Nat → Bool
  | none => false
  | some n => n != 0

/-- JS truthiness of `server.getHostname()` (`undefined`/`null` and the
empty string are falsy). -/
def jsTruthyStr : Option String → Bool
  | none => false
  | some s => s != ""

/-- The per-device proxy pushes of main.js: skipped entirely in direct-URL
mode; otherwise an RTSP route is pushed iff both `ports.rtsp` and
`target.ports.rtsp` are truthy, and a snapshot route iff both
`ports.snapshot` and `target.ports.snapshot` are truthy. -/
def deviceProxies (useDirectUrls : Bool) (cfg : OnvifConfig) (host : String) : List Proxy :=
  if useDirectUrls then []
  else
    (if jsTruthyNat cfg.ports.rtsp && jsTruthyNat cfg.target.ports.rtsp then
      [{ sourceHostname := host, sourcePort := cfg.ports.rtsp.getD 0,
         targetHostname := cfg.target.hostname, targetPort := cfg.target.ports.rtsp.getD 0 }]
     else []) ++
    (if jsTruthyNat cfg.ports.snapshot && jsTruthyNat cfg.target.ports.snapshot then
      [{ sourceHostname := host, sourcePort := cfg.ports.snapshot.getD 0,
         targetHostname := cfg.target.hostname, targetPort := cfg.target.ports.snapshot.getD 0 }]
     else [])

/-- Events emitted by the startup sequence, in order. -/
inductive Ev where
  | startDevice (mac : String) (host : String)
  | sleep (ms : Nat)
  | logError (mac : String)
  | processExit (code : Int)
  | startDiscovery (servers : List ServerInfo)
  | startProxy (p : Proxy)
deriving DecidableEq, Repr

/-- The device an entry of `config.onvif` becomes once its MAC resolved:
uuid, resolved host IP, server port. -/
def mkInfo (resolve : String → Option String) (cfg : OnvifConfig) : ServerInfo :=
  { uuid := cfg.uuid, hostname := (resolve cfg.mac).getD "", port := cfg.ports.server }

/-- The `for (let onvifConfig of config.onvif)` loop of main.js.
`resolve` models MAC-to-IP resolution against the host's network
interfaces ("Modelled from the spec": `getHostname()` of onvif-server.js,
which is not under src/, returns the IP resolved from the MAC, absent when
no interface matches).  Per device: if the hostname is truthy, start the
server, record it, sleep 2000 ms, and collect its proxy routes; otherwise
log the failure and call `process.exit(-1)`, which stops everything.
Returns (servers, proxies, trace, exited). -/
def runLoop (resolve : String → Option String) (useDirectUrls : Bool) :
    List OnvifConfig → List ServerInfo × List Proxy × List Ev × Bool
  | [] => ([], [], [], false)
  | cfg :: rest =>
    let h := resolve cfg.mac
    if jsTruthyStr h then
      let host := h.getD ""
      let info : ServerInfo := { uuid := cfg.uuid, hostname := host, port := cfg.ports.server }
      let devProxies := deviceProxies useDirectUrls cfg host
      let next := runLoop resolve useDirectUrls rest
      (info :: next.1, devProxies ++ next.2.1,
       Ev.startDevice cfg.mac host :: Ev.sleep 2000 :: next.2.2.1, next.2.2.2)
    else
      ([], [], [Ev.logError cfg.mac, Ev.processExit (-1)], true)

/-- Result of the whole async startup IIFE of main.js. -/
structure RunResult where
  servers : List ServerInfo
  proxies : List Proxy
  trace : List Ev
  exited : Bool
deriving DecidableEq, Repr

/-- The async startup IIFE of main.js: run the device loop; if it exited
nothing else happens; otherwise start one discovery server for all started
devices (only when at least one exists) and then the TCP proxies. -/
def mainRun (resolve : String → Option String) (useDirectUrls : Bool)
    (configs : List OnvifConfig) : RunResult :=
  let r := runLoop resolve useDirectUrls configs
  if r.2.2.2 then
    { servers := r.1, proxies := r.2.1, trace := r.2.2.1, exited := true }
  else
    { servers := r.1, proxies := r.2.1,
      trace := r.2.2.1
        ++ (if r.1.isEmpty then [] else [Ev.startDiscovery r.1])
        ++ r.2.1.map Ev.startProxy,
      exited := false }

/-- Recognises the discovery-start event. -/
def isStartDiscoveryEv : Ev → Bool
  | .startDiscovery _ => true
  | _ => false

/-! ## Concrete fixtures used by witnesses and counterexamples -/

/-- A first demo device. -/
def srvA : ServerInfo := { uuid := "uuid-a", hostname := "192.168.1.10", port := 8081 }

/-- A second demo device. -/
def srvB : ServerInfo := { uuid := "uuid-b", hostname := "192.168.1.11", port := 8082 }

/-- A freshly constructed discovery server over the two demo devices. -/
def demoState : DiscoveryState := DiscoveryServer.create [srvA, srvB]

/-- A demo probe source. -/
def demoRemote : Remote := { address := "192.168.1.50", port := 49152 }

/-- A well-formed demo probe matching the type filter. -/
def demoProbe : ProbeEnvelope :=
  { messageID := some (XField.str "probe-uuid-1")
    types := some (XField.str "dn:NetworkVideoTransmitter") }

/-- A demo device configuration whose MAC does not resolve. -/
def cfgA : OnvifConfig :=
  { name := "cam-a", mac := "aa:aa:aa:aa:aa:aa", uuid := "uuid-a"
    ports := { server := 8081, rtsp := some 8554, snapshot := some 8580 }
    target := { hostname := "10.0.0.9", ports := { rtsp := some 554, snapshot := some 80 } } }

/-- A demo device configuration whose MAC does resolve. -/
def cfgB : OnvifConfig :=
  { name := "cam-b", mac := "bb:bb:bb:bb:bb:bb", uuid := "uuid-b"
    ports := { server := 8082, rtsp := some 8555, snapshot := some 8581 }
    target := { hostname := "10.0.0.9", ports := { rtsp := some 554, snapshot := some 80 } } }

/-- A demo resolver: only cfgB's MAC maps to a live interface. -/
def demoResolve : String → Option String :=
  fun m => if m = "bb:bb:bb:bb:bb:bb" then some "10.0.0.2" else none

/-- A demo resolver under which every demo MAC resolves. -/
def demoResolveAll : String → Option String :=
  fun m => if m = "aa:aa:aa:aa:aa:aa" then some "10.0.0.1"
           else if m = "bb:bb:bb:bb:bb:bb" then some "10.0.0.2" else none

/-! ## Helper lemmas: the JS Map model -/

theorem jsGet_cons (p : String × Option Nat) (l : CounterMap) (k : String) :
    jsGet (p :: l) k = if p.1 == k then p.2 else jsGet l k := by
  by_cases h : p.1 == k <;> simp [jsGet, List.find?, h]

theorem jsGet_jsSet_self (m : CounterMap) (k : String) (v : Option Nat) :
    jsGet (jsSet m k v) k = v := by
  induction m with
  | nil => simp [jsSet, jsGet, List.find?]
  | cons p rest ih =>
    by_cases h : p.1 == k
    · simp [jsSet, h, jsGet_cons]
    · simp [jsSet, h, jsGet_cons, ih]

theorem jsGet_jsSet_ne (m : CounterMap) (k : String) (v : Option Nat) (k' : String)
    (h : k' ≠ k) : jsGet (jsSet m k v) k' = jsGet m k' := by
  induction m with
  | nil => simp [jsSet, jsGet_cons, Ne.symm h, jsGet]
  | cons p rest ih =>
    by_cases hp : p.1 == k
    · have hpk : p.1 = k := by simpa using hp
      simp [jsSet, hp, jsGet_cons, Ne.symm h, hpk]
    · simp [jsSet, hp, jsGet_cons, ih]

theorem jsGet_create_foldl (ss : List ServerInfo) :
    ∀ (m : CounterMap) (k : String),
      jsGet (ss.foldl (fun m s => jsSet m s.uuid (some 0)) m) k
        = if k ∈ ss.map (fun s => s.uuid) then some 0 else jsGet m k := by
  induction ss with
  | nil => intro m k; simp
  | cons s rest ih =>
    intro m k
    simp only [List.foldl_cons, List.map_cons, List.mem_cons]
    rw [ih]
    by_cases hk : k ∈ rest.map (fun s => s.uuid)
    · simp [hk]
    · by_cases he : k = s.uuid
      · simp [hk, he, jsGet_jsSet_self]
      · simp [hk, he, jsGet_jsSet_ne _ _ _ _ he]

/-- Number of occurrences of a uuid in a list. -/
def occCount (k : String) : List String → Nat
  | [] => 0
  | x :: rest => (if x = k then 1 else 0) + occCount k rest

theorem occCount_eq_zero (k : String) (l : List String) (h : k ∉ l) :
    occCount k l = 0 := by
  induction l with
  | nil => rfl
  | cons x rest ih =>
    simp only [List.mem_cons, not_or] at h
    simp [occCount, Ne.symm h.1, ih h.2]

theorem occCount_eq_one_of_nodup (l : List String) (hnd : l.Nodup) (k : String)
    (hk : k ∈ l) : occCount k l = 1 := by
  induction l with
  | nil => cases hk
  | cons x rest ih =>
    rcases List.nodup_cons.mp hnd with ⟨hx, hnd'⟩
    rcases List.mem_cons.mp hk with h | h
    · subst h
      simp [occCount, occCount_eq_zero k rest hx]
    · have : x ≠ k := fun e => hx (e ▸ h)
      simp [occCount, this, ih hnd' h]

/-- Effect of one probe response round on the counter map: every key is
bumped once per occurrence among the registered devices' uuids (a stored
non-number stays a non-number, an absent key stays absent-or-non-number). -/
theorem jsGet_respondAll (remote : Remote) (rel : String) :
    ∀ (ss : List ServerInfo) (m : CounterMap) (k : String),
      jsGet (respondAll remote rel ss m).2 k
        = (jsGet m k).map (fun n => n + occCount k (ss.map (fun s => s.uuid))) := by
  intro ss
  induction ss with
  | nil =>
    intro m k
    cases h : jsGet m k <;> simp [respondAll, occCount, h]
  | cons s rest ih =>
    intro m k
    simp only [respondAll]
    rw [ih]
    by_cases hk : k = s.uuid
    · rw [hk, jsGet_jsSet_self]
      cases h : jsGet m s.uuid <;> simp [occCount, h, Nat.add_assoc]
    · rw [jsGet_jsSet_ne _ _ _ _ hk]
      simp [occCount, Ne.symm hk]

/-- With pairwise distinct device uuids, the responses of one round carry
each device's pre-round counter, in registration order. -/
theorem respondAll_fst (remote : Remote) (rel : String) :
    ∀ (ss : List ServerInfo) (m : CounterMap),
      (ss.map (fun s => s.uuid)).Nodup →
      (respondAll remote rel ss m).1
        = ss.map (fun s => mkProbeMatch remote rel s (jsGet m s.uuid)) := by
  intro ss
  induction ss with
  | nil => intro m _; rfl
  | cons s rest ih =>
    intro m hnd
    rcases List.nodup_cons.mp hnd with ⟨hx, hnd'⟩
    have htail :
        (respondAll remote rel rest
            (jsSet m s.uuid ((jsGet m s.uuid).map (fun n => n + 1)))).1
          = rest.map (fun t => mkProbeMatch remote rel t (jsGet m t.uuid)) := by
      rw [ih _ hnd']
      refine List.map_congr_left ?_
      intro t ht
      have hne : t.uuid ≠ s.uuid := by
        intro e
        apply hx
        show s.uuid ∈ List.map (fun s => s.uuid) rest
        rw [← e]
        exact List.mem_map_of_mem (fun s => s.uuid) ht
      rw [jsGet_jsSet_ne _ _ _ _ hne]
    simp only [respondAll, List.map_cons, htail]

/-! ## Helper lemmas: the main.js startup loop -/

/-- When every MAC in the list resolves, the loop starts every device in
configuration order, with a 2000 ms sleep after each start, and never
exits. -/
theorem runLoop_ok (resolve : String → Option String) (u : Bool) :
    ∀ (configs : List OnvifConfig),
      (∀ cfg ∈ configs, jsTruthyStr (resolve cfg.mac) = true) →
      runLoop resolve u configs =
        (configs.map (mkInfo resolve),
         configs.flatMap (fun cfg => deviceProxies u cfg ((resolve cfg.mac).getD "")),
         configs.flatMap (fun cfg =>
           [Ev.startDevice cfg.mac ((resolve cfg.mac).getD ""), Ev.sleep 2000]),
         false) := by
  intro configs
  induction configs with
  | nil => intro _; rfl
  | cons cfg rest ih =>
    intro hall
    have hhead := hall cfg (List.mem_cons_self cfg rest)
    have htail : ∀ c ∈ rest, jsTruthyStr (resolve c.mac) = true :=
      fun c hc => hall c (List.mem_cons_of_mem cfg hc)
    simp only [runLoop, hhead, if_true, ih htail, List.map_cons, List.flatMap_cons,
      mkInfo, List.cons_append, List.nil_append]

/-- When every MAC before position `k` resolves and the one at `k` does
not, the loop starts exactly the devices before `k`, then logs the failure
and exits the process; nothing after `k` is attempted. -/
theorem runLoop_exit (resolve : String → Option String) (u : Bool) :
    ∀ (good : List OnvifConfig) (bad : OnvifConfig) (rest : List OnvifConfig),
      (∀ cfg ∈ good, jsTruthyStr (resolve cfg.mac) = true) →
      jsTruthyStr (resolve bad.mac) = false →
      runLoop resolve u (good ++ bad :: rest) =
        (good.map (mkInfo resolve),
         good.flatMap (fun cfg => deviceProxies u cfg ((resolve cfg.mac).getD "")),
         good.flatMap (fun cfg =>
             [Ev.startDevice cfg.mac ((resolve cfg.mac).getD ""), Ev.sleep 2000])
           ++ [Ev.logError bad.mac, Ev.processExit (-1)],
         true) := by
  intro good
  induction good with
  | nil =>
    intro bad rest _ hbad
    simp only [List.nil_append, runLoop, hbad, if_false, List.map_nil,
      List.flatMap_nil, Bool.false_eq_true]
  | cons cfg gtail ih =>
    intro bad rest hgood hbad
    have hhead := hgood cfg (List.mem_cons_self cfg gtail)
    have htail : ∀ c ∈ gtail, jsTruthyStr (resolve c.mac) = true :=
      fun c hc => hgood c (List.mem_cons_of_mem cfg hc)
    simp only [List.cons_append, runLoop, hhead, if_true, List.map_cons,
      List.flatMap_cons, mkInfo, List.nil_append, List.append_assoc, List.append_eq]
    rw [ih bad rest htail hbad]

/-- In direct-URL mode the loop collects no proxy route at all, whatever
happens with MAC resolution. -/
theorem runLoop_direct_proxies (resolve : String → Option String) :
    ∀ (configs : List OnvifConfig), (runLoop resolve true configs).2.1 = [] := by
  intro configs
  induction configs with
  | nil => rfl
  | cons cfg rest ih =>
    by_cases h : jsTruthyStr (resolve cfg.mac)
    · simp [runLoop, h, deviceProxies, ih]
    · simp [runLoop, h]

/-- The per-device trace blocks contain no discovery-start event. -/
theorem filter_blocks_eq_nil (l : List OnvifConfig) (g : OnvifConfig → String) :
    (l.flatMap (fun cfg => [Ev.startDevice cfg.mac (g cfg), Ev.sleep 2000])).filter
        isStartDiscoveryEv = [] := by
  induction l with
  | nil => rfl
  | cons cfg rest ih => simp [List.flatMap_cons, List.filter_append, ih, isStartDiscoveryEv]

/-- The proxy-start events contain no discovery-start event. -/
theorem filter_proxyEvs_eq_nil (ps : List Proxy) :
    ((ps.map Ev.startProxy).filter isStartDiscoveryEv) = [] := by
  induction ps with
  | nil => rfl
  | cons p rest ih => simp [List.map_cons, List.filter_cons, ih, isStartDiscoveryEv]

/-! ## Helper lemmas: the message handler -/

theorem probeAccepted_iff (t : String) :
    probeAccepted t = true ↔ (t = "" ∨ jsContains t "NetworkVideoTransmitter" = true) := by
  simp [probeAccepted, Bool.or_eq_true, beq_iff_eq]

/-- A `responded` outcome can only come from a parsed envelope whose
message ID path was present and whose type filter normalised to an
accepted string; the new counter map is the one produced by the response
round. -/
theorem handleMessage_responded_inv (st : DiscoveryState) (parsed : Option ProbeEnvelope)
    (remote : Remote) (ms : List ProbeMatch) (m' : CounterMap)
    (h : DiscoveryServer.handleMessage st parsed remote = (MsgOutcome.responded ms, m')) :
    ∃ env uuidField t, parsed = some env ∧ env.messageID = some uuidField ∧
      normTypes env.types = some t ∧ probeAccepted t = true ∧
      ms = (respondAll remote ((normField uuidField).getD "undefined")
              st.servers st.messageCounters).1 ∧
      m' = (respondAll remote ((normField uuidField).getD "undefined")
              st.servers st.messageCounters).2 := by
  cases parsed with
  | none => simp [DiscoveryServer.handleMessage] at h
  | some env =>
    cases hm : env.messageID with
    | none => simp [DiscoveryServer.handleMessage, hm] at h
    | some f =>
      cases ht : normTypes env.types with
      | none => simp [DiscoveryServer.handleMessage, hm, ht] at h
      | some t =>
        by_cases ha : probeAccepted t
        · simp only [DiscoveryServer.handleMessage, hm, ht, ha, if_true] at h
          rw [Prod.mk.injEq, MsgOutcome.responded.injEq] at h
          exact ⟨env, f, t, rfl, hm, ht, ha, h.1.symm, h.2.symm⟩
        · simp [DiscoveryServer.handleMessage, hm, ht, ha] at h

/-- Counter map produced by a non-responding outcome is the old one. -/
theorem handleMessage_snd_of_not_responded (st : DiscoveryState)
    (parsed : Option ProbeEnvelope) (remote : Remote)
    (h : ∀ ms, (DiscoveryServer.handleMessage st parsed remote).1 ≠ MsgOutcome.responded ms) :
    (DiscoveryServer.handleMessage st parsed remote).2 = st.messageCounters := by
  cases parsed with
  | none => rfl
  | some env =>
    cases hm : env.messageID with
    | none => simp [DiscoveryServer.handleMessage, hm]
    | some f =>
      cases ht : normTypes env.types with
      | none => simp [DiscoveryServer.handleMessage, hm, ht]
      | some t =>
        by_cases ha : probeAccepted t
        · exfalso
          apply h (respondAll remote ((normField f).getD "undefined")
            st.servers st.messageCounters).1
          simp [DiscoveryServer.handleMessage, hm, ht, ha]
        · simp [DiscoveryServer.handleMessage, hm, ht, ha]

/-! ## Claims -/

/-- C2: for every registered device, the discovery sequence counter is
initialized to 0 at registration, incremented by exactly 1 each time a
ProbeMatch is composed for that device, never reset while the process
runs, and per-device independent: a responded probe increments the counter
of each registered device by exactly 1 (distinct uuids assumed, as the
spec's data model requires) and touches no other key; a probe that matches
zero devices (rejected filter, or no registered device) increments
nothing; no operation ever decreases a counter. -/
theorem claim_C2 (servers : List ServerInfo) (st : DiscoveryState) (remote : Remote)
    (hnd : (st.servers.map (fun s => s.uuid)).Nodup) :
    (∀ s ∈ servers, jsGet (DiscoveryServer.create servers).messageCounters s.uuid = some 0)
    ∧ (∀ env ms m', DiscoveryServer.handleMessage st (some env) remote
          = (MsgOutcome.responded ms, m') →
        (∀ s ∈ st.servers,
          jsGet m' s.uuid = (jsGet st.messageCounters s.uuid).map (fun n => n + 1))
        ∧ (∀ k, k ∉ st.servers.map (fun s => s.uuid) →
            jsGet m' k = jsGet st.messageCounters k))
    ∧ (∀ parsed, (∀ ms, (DiscoveryServer.handleMessage st parsed remote).1
          ≠ MsgOutcome.responded ms) →
        (DiscoveryServer.handleMessage st parsed remote).2 = st.messageCounters)
    ∧ (st.servers = [] → ∀ parsed,
        (DiscoveryServer.handleMessage st parsed remote).2 = st.messageCounters)
    ∧ (∀ parsed k n, jsGet st.messageCounters k = some n →
        ∃ m, jsGet (DiscoveryServer.handleMessage st parsed remote).2 k = some m ∧ n ≤ m)
    ∧ (DiscoveryServer.stop st).1.messageCounters = st.messageCounters
    ∧ (∀ joinFails, (DiscoveryServer.start st joinFails).1.messageCounters
        = st.messageCounters) := by
  refine ⟨?_, ?_, ?_, ?_, ?_, ?_, ?_⟩
  · intro s hs
    show jsGet (servers.foldl (fun m s => jsSet m s.uuid (some 0)) []) s.uuid = some 0
    rw [jsGet_create_foldl]
    simp [List.mem_map_of_mem (fun s => s.uuid) hs]
  · intro env ms m' h
    obtain ⟨env', f, t, _, _, _, _, _, hm'⟩ :=
      handleMessage_responded_inv st (some env) remote ms m' h
    subst hm'
    constructor
    · intro s hs
      rw [jsGet_respondAll]
      rw [occCount_eq_one_of_nodup _ hnd s.uuid (List.mem_map_of_mem (fun s => s.uuid) hs)]
    · intro k hk
      rw [jsGet_respondAll, occCount_eq_zero k _ hk]
      cases jsGet st.messageCounters k <;> rfl
  · exact fun parsed => handleMessage_snd_of_not_responded st parsed remote
  · intro hse parsed
    cases parsed with
    | none => rfl
    | some env =>
      cases hm : env.messageID with
      | none => simp [DiscoveryServer.handleMessage, hm]
      | some f =>
        cases ht : normTypes env.types with
        | none => simp [DiscoveryServer.handleMessage, hm, ht]
        | some t =>
          by_cases ha : probeAccepted t <;>
            simp [DiscoveryServer.handleMessage, hm, ht, ha, hse, respondAll]
  · intro parsed k n hn
    cases parsed with
    | none => exact ⟨n, hn, Nat.le_refl n⟩
    | some env =>
      cases hm : env.messageID with
      | none => exact ⟨n, by simpa [DiscoveryServer.handleMessage, hm] using hn, Nat.le_refl n⟩
      | some f =>
        cases ht : normTypes env.types with
        | none => exact ⟨n, by simpa [DiscoveryServer.handleMessage, hm, ht] using hn, Nat.le_refl n⟩
        | some t =>
          by_cases ha : probeAccepted t
          · refine ⟨n + occCount k (st.servers.map (fun s => s.uuid)), ?_, Nat.le_add_right n _⟩
            simp only [DiscoveryServer.handleMessage, hm, ht, ha, if_true]
            rw [jsGet_respondAll, hn]
            rfl
          · exact ⟨n, by simpa [DiscoveryServer.handleMessage, hm, ht, ha] using hn, Nat.le_refl n⟩
  · obtain ⟨sv, mc, so, rs⟩ := st
    cases so <;> cases rs <;> rfl
  · intro joinFails; rfl

/-- C2 witness: on the two-device demo server, a counter starts at 0 and a
responded probe bumps it to exactly its old value plus one. -/
theorem claim_C2_witness :
    jsGet (DiscoveryServer.create [srvA, srvB]).messageCounters srvA.uuid = some 0
    ∧ jsGet (DiscoveryServer.handleMessage demoState (some demoProbe) demoRemote).2 srvA.uuid
        = (jsGet demoState.messageCounters srvA.uuid).map (fun n => n + 1) := by
  have h := claim_C2 [srvA, srvB] demoState demoRemote (by decide)
  refine ⟨h.1 srvA (by decide), ?_⟩
  exact (h.2.1 demoProbe
    (respondAll demoRemote "probe-uuid-1" demoState.servers demoState.messageCounters).1
    (respondAll demoRemote "probe-uuid-1" demoState.servers demoState.messageCounters).2
    rfl).1 srvA (by decide)

/-- C3: for every inbound probe whose type filter is accepted, the
responder sends exactly one ProbeMatch datagram per currently registered
device, in device-registration order, each to the probe's source address
and port over the separate response socket, each with RelatesTo equal to
the inbound message ID, `urn:uuid:` endpoint address, Types
`dn:NetworkVideoTransmitter`, XAddrs
`http://hostIP:serverPort/onvif/device_service`, MetadataVersion 1,
AppSequence InstanceId 1234567890, and MessageNumber equal to that
device's current sequence counter (distinct uuids assumed). -/
theorem claim_C3 (st : DiscoveryState) (remote : Remote) (env : ProbeEnvelope)
    (f : XField) (t : String)
    (hnd : (st.servers.map (fun s => s.uuid)).Nodup)
    (hmsg : env.messageID = some f)
    (ht : normTypes env.types = some t)
    (hacc : probeAccepted t = true) :
    (DiscoveryServer.handleMessage st (some env) remote).1 =
      MsgOutcome.responded (st.servers.map (fun s =>
        { relatesTo := (normField f).getD "undefined"
          endpointAddress := "urn:uuid:" ++ s.uuid
          typesField := "dn:NetworkVideoTransmitter"
          xaddrs := "http://" ++ s.hostname ++ ":" ++ toString s.port ++ "/onvif/device_service"
          metadataVersion := 1
          instanceId := 1234567890
          messageNumber := jsGet st.messageCounters s.uuid
          destAddress := remote.address
          destPort := remote.port
          viaResponseSocket := true })) := by
  simp only [DiscoveryServer.handleMessage, hmsg, ht, hacc, if_true]
  rw [respondAll_fst _ _ _ _ hnd]
  simp [mkProbeMatch]

/-- C3 witness: the demo probe against the two-device demo server yields
the two fully explicit ProbeMatch datagrams in registration order. -/
theorem claim_C3_witness :
    (DiscoveryServer.handleMessage demoState (some demoProbe) demoRemote).1 =
      MsgOutcome.responded (demoState.servers.map (fun s =>
        { relatesTo := "probe-uuid-1"
          endpointAddress := "urn:uuid:" ++ s.uuid
          typesField := "dn:NetworkVideoTransmitter"
          xaddrs := "http://" ++ s.hostname ++ ":" ++ toString s.port ++ "/onvif/device_service"
          metadataVersion := 1
          instanceId := 1234567890
          messageNumber := jsGet demoState.messageCounters s.uuid
          destAddress := demoRemote.address
          destPort := demoRemote.port
          viaResponseSocket := true })) :=
  claim_C3 demoState demoRemote demoProbe (XField.str "probe-uuid-1")
    "dn:NetworkVideoTransmitter" (by decide) rfl rfl (by decide)

/-- C4: the responder replies to an inbound probe if and only if the
probe's type filter is the empty string or contains the substring
NetworkVideoTransmitter; any other type filter yields no response and no
error (outcome `ignored`, counters untouched). -/
theorem claim_C4 (st : DiscoveryState) (remote : Remote) (env : ProbeEnvelope)
    (f : XField) (t : String)
    (hmsg : env.messageID = some f) (ht : normTypes env.types = some t) :
    ((∃ ms, (DiscoveryServer.handleMessage st (some env) remote).1
        = MsgOutcome.responded ms)
      ↔ (t = "" ∨ jsContains t "NetworkVideoTransmitter" = true))
    ∧ (probeAccepted t = false →
        DiscoveryServer.handleMessage st (some env) remote
          = (MsgOutcome.ignored, st.messageCounters)) := by
  by_cases ha : probeAccepted t
  · refine ⟨⟨fun _ => (probeAccepted_iff t).mp ha, fun _ => ?_⟩, fun hf => ?_⟩
    · exact ⟨(respondAll remote ((normField f).getD "undefined")
          st.servers st.messageCounters).1,
        by simp [DiscoveryServer.handleMessage, hmsg, ht, ha]⟩
    · exact absurd ha (by simp [hf])
  · have hf : probeAccepted t = false := by simpa using ha
    refine ⟨⟨fun hex => ?_, fun hr => ?_⟩, fun _ => ?_⟩
    · obtain ⟨ms, hms⟩ := hex
      rw [show DiscoveryServer.handleMessage st (some env) remote
          = (MsgOutcome.ignored, st.messageCounters) from by
        simp [DiscoveryServer.handleMessage, hmsg, ht, hf]] at hms
      cases hms
    · exact absurd ((probeAccepted_iff t).mpr hr) (by simp [hf])
    · simp [DiscoveryServer.handleMessage, hmsg, ht, hf]

/-- C4 witness: a probe with type filter `tns:SomeOtherDevice` yields the
no-response, no-error outcome on the demo server. -/
theorem claim_C4_witness :
    DiscoveryServer.handleMessage demoState
        (some { messageID := some (XField.str "probe-2")
                types := some (XField.str "tns:SomeOtherDevice") })
        demoRemote
      = (MsgOutcome.ignored, demoState.messageCounters) := by
  have h := claim_C4 demoState demoRemote
    { messageID := some (XField.str "probe-2")
      types := some (XField.str "tns:SomeOtherDevice") }
    (XField.str "probe-2") "tns:SomeOtherDevice" rfl rfl
  exact h.2 (by decide)

/-- C5 counterexample: a datagram that parses as XML but lacks the
`Envelope.Header[0].MessageID[0]` path is malformed in the claim's sense
(unparseable probe fields), yet its handling is not the logged-and-dropped
parse-failure path: the access throws and the error escapes the discovery
handler (`thrown`), so the error IS propagated out of the handler,
contrary to the claim. -/
theorem claim_C5_counterexample :
    DiscoveryServer.handleMessage demoState
        (some { messageID := none, types := some (XField.str "") }) demoRemote
      = (MsgOutcome.thrown, demoState.messageCounters)
    ∧ MsgOutcome.thrown ≠ MsgOutcome.parseFailure := by
  exact ⟨rfl, by decide⟩

/-- C5 (amended): a datagram that fails XML parsing is logged and silently
dropped with no response and no counter change; an absent `Types` path
defaults the type filter to the empty string and processing continues; but
a parsed datagram whose `MessageID` path is missing, or whose `Types`
value normalises to no string (an object without text), raises an error
that escapes the discovery handler — it is caught only by the
process-level uncaughtException handler of main.js, so the process still
does not terminate; in every such case no response is sent and the
counters are unchanged. -/
theorem claim_C5 (st : DiscoveryState) (remote : Remote) :
    DiscoveryServer.handleMessage st none remote
        = (MsgOutcome.parseFailure, st.messageCounters)
    ∧ (∀ env, env.messageID = none →
        DiscoveryServer.handleMessage st (some env) remote
          = (MsgOutcome.thrown, st.messageCounters))
    ∧ (∀ env f, env.messageID = some f → normTypes env.types = none →
        DiscoveryServer.handleMessage st (some env) remote
          = (MsgOutcome.thrown, st.messageCounters))
    ∧ normTypes none = some ""
    ∧ (∀ parsed ms m',
        DiscoveryServer.handleMessage st parsed remote = (MsgOutcome.responded ms, m') →
        ∃ env f t, parsed = some env ∧ env.messageID = some f ∧
          normTypes env.types = some t ∧ probeAccepted t = true) := by
  refine ⟨rfl, ?_, ?_, rfl, ?_⟩
  · intro env hm
    simp [DiscoveryServer.handleMessage, hm]
  · intro env f hm ht
    simp [DiscoveryServer.handleMessage, hm, ht]
  · intro parsed ms m' h
    obtain ⟨env, f, t, hp, hm, ht, ha, _, _⟩ :=
      handleMessage_responded_inv st parsed remote ms m' h
    exact ⟨env, f, t, hp, hm, ht, ha⟩

/-- C5 witness: a datagram missing both probe paths hits the thrown
branch with counters unchanged. -/
theorem claim_C5_witness :
    DiscoveryServer.handleMessage demoState
        (some { messageID := none, types := none }) demoRemote
      = (MsgOutcome.thrown, demoState.messageCounters) := by
  have h := claim_C5 demoState demoRemote
  exact h.2.1 { messageID := none, types := none } rfl

/-- C6 counterexample: a `Types` value parsed as an object WITHOUT a text
field is malformed, yet it does not default to the empty string: the
handler throws, while the same probe with the `Types` path absent is
processed (the empty-string default) and does not throw. -/
theorem claim_C6_counterexample :
    (DiscoveryServer.handleMessage demoState
        (some { messageID := some (XField.str "probe-3")
                types := some (XField.obj none) }) demoRemote).1
      = MsgOutcome.thrown
    ∧ (DiscoveryServer.handleMessage demoState
        (some { messageID := some (XField.str "probe-3")
                types := none }) demoRemote).1
      ≠ MsgOutcome.thrown := by
  exact ⟨rfl, by decide⟩

/-- C6 (amended): a probe field given as a plain string and the same value
given as an object with a text field are accepted identically — the whole
handling of the datagram is equal — for both the message ID and the type
filter; the type filter defaults to the empty string when the `Types` path
is absent; but a `Types` value that is an object without a text field
yields `undefined` and throws at the filter check instead of defaulting to
the empty string. -/
theorem claim_C6 (st : DiscoveryState) (remote : Remote) :
    (∀ tys uuidText,
        DiscoveryServer.handleMessage st
            (some { messageID := some (XField.str uuidText), types := tys }) remote
          = DiscoveryServer.handleMessage st
            (some { messageID := some (XField.obj (some uuidText)), types := tys }) remote)
    ∧ (∀ mid typeText,
        DiscoveryServer.handleMessage st
            (some { messageID := mid, types := some (XField.str typeText) }) remote
          = DiscoveryServer.handleMessage st
            (some { messageID := mid, types := some (XField.obj (some typeText)) }) remote)
    ∧ (∀ s, normField (XField.str s) = normField (XField.obj (some s)))
    ∧ (∀ mid,
        DiscoveryServer.handleMessage st
            (some { messageID := mid, types := none }) remote
          = DiscoveryServer.handleMessage st
            (some { messageID := mid, types := some (XField.str "") }) remote)
    ∧ (∀ u,
        DiscoveryServer.handleMessage st
            (some { messageID := some u, types := some (XField.obj none) }) remote
          = (MsgOutcome.thrown, st.messageCounters)) :=
  ⟨fun _ _ => rfl, fun _ _ => rfl, fun _ => rfl, fun _ => rfl, fun _ => rfl⟩

/-! ## Helper lemmas: multicast group joining -/

theorem mem_setAdd (s : List String) (x y : String) :
    y ∈ DiscoveryServer.setAdd s x ↔ y ∈ s ∨ y = x := by
  unfold DiscoveryServer.setAdd
  by_cases h : x ∈ s
  · simp only [h, if_true]
    constructor
    · exact Or.inl
    · rintro (h' | rfl)
      · exact h'
      · exact h
  · simp [h]

theorem nodup_setAdd (s : List String) (x : String) (h : s.Nodup) :
    (DiscoveryServer.setAdd s x).Nodup := by
  unfold DiscoveryServer.setAdd
  by_cases hx : x ∈ s
  · simpa [hx] using h
  · simp [hx, List.nodup_append, h]

theorem collect_aux_nodup (ss : List ServerInfo) :
    ∀ (acc : List String), acc.Nodup →
      (ss.foldl (fun s srv => if srv.hostname = "" then s else DiscoveryServer.setAdd s srv.hostname)
          acc).Nodup := by
  induction ss with
  | nil => intro acc h; exact h
  | cons srv rest ih =>
    intro acc h
    simp only [List.foldl_cons]
    by_cases hh : srv.hostname = ""
    · simpa [hh] using ih acc h
    · simpa [hh] using ih _ (nodup_setAdd acc srv.hostname h)

theorem mem_collect_aux (ss : List ServerInfo) :
    ∀ (acc : List String) (x : String),
      x ∈ ss.foldl (fun s srv => if srv.hostname = "" then s else DiscoveryServer.setAdd s srv.hostname) acc
        ↔ x ∈ acc ∨ (x ≠ "" ∧ ∃ srv ∈ ss, srv.hostname = x) := by
  induction ss with
  | nil => intro acc x; simp
  | cons srv rest ih =>
    intro acc x
    simp only [List.foldl_cons]
    by_cases hh : srv.hostname = ""
    · rw [if_pos hh, ih]
      constructor
      · rintro (h | h)
        · exact Or.inl h
        · exact Or.inr ⟨h.1, h.2.elim (fun s hs => ⟨s, List.mem_cons_of_mem srv hs.1, hs.2⟩)⟩
      · rintro (h | ⟨hne, s, hs, he⟩)
        · exact Or.inl h
        · rcases List.mem_cons.mp hs with rfl | hs'
          · exact absurd (hh ▸ he) (Ne.symm hne)
          · exact Or.inr ⟨hne, s, hs', he⟩
    · rw [if_neg hh, ih]
      constructor
      · rintro (h | h)
        · rcases (mem_setAdd acc srv.hostname x).mp h with h' | rfl
          · exact Or.inl h'
          · exact Or.inr ⟨hh, srv, List.mem_cons_self srv rest, rfl⟩
        · exact Or.inr ⟨h.1, h.2.elim (fun s hs => ⟨s, List.mem_cons_of_mem srv hs.1, hs.2⟩)⟩
      · rintro (h | ⟨hne, s, hs, he⟩)
        · exact Or.inl ((mem_setAdd acc srv.hostname x).mpr (Or.inl h))
        · rcases List.mem_cons.mp hs with rfl | hs'
          · exact Or.inl ((mem_setAdd acc s.hostname x).mpr (Or.inr he.symm))
          · exact Or.inr ⟨hne, s, hs', he⟩


theorem map_fst_pair {α β : Type} (f : α → β) (l : List α) :
    (l.map (fun x => (x, f x))).map Prod.fst = l := by
  induction l with
  | nil => rfl
  | cons x rest ih => simp [ih]

/-- C8: on start, the shared UDP socket is bound to port 3702 and one
multicast join is attempted exactly once per distinct (non-empty) resolved
host IP across all registered devices, in a deduplicated list; which IPs
are attempted does not depend on which joins fail, so one failing IP is
logged as `(ip, false)` and does not prevent the attempts for the other
IPs; no join failure is fatal (the model has no failing outcome beyond the
logged pair). -/
theorem claim_C8 (servers : List ServerInfo) (joinFails joinFails' : String → Bool) :
    (DiscoveryServer.start (DiscoveryServer.create servers) joinFails).2.boundPort = 3702
    ∧ ((DiscoveryServer.start (DiscoveryServer.create servers) joinFails).2.joinAttempts.map
        Prod.fst).Nodup
    ∧ (∀ h,
        h ∈ (DiscoveryServer.start (DiscoveryServer.create servers) joinFails).2.joinAttempts.map
            Prod.fst
          ↔ (h ≠ "" ∧ ∃ s ∈ servers, s.hostname = h))
    ∧ (DiscoveryServer.start (DiscoveryServer.create servers) joinFails).2.joinAttempts.map
          Prod.fst
        = (DiscoveryServer.start (DiscoveryServer.create servers) joinFails').2.joinAttempts.map
          Prod.fst
    ∧ (∀ h,
        h ∈ (DiscoveryServer.start (DiscoveryServer.create servers) joinFails).2.joinAttempts.map
            Prod.fst →
        (h, !joinFails h)
          ∈ (DiscoveryServer.start (DiscoveryServer.create servers) joinFails).2.joinAttempts) := by
  have hmapfst : ∀ (g : String → Bool),
      ((DiscoveryServer.collectHostnames servers).map (fun h => (h, !g h))).map Prod.fst
        = DiscoveryServer.collectHostnames servers := by
    intro g
    exact map_fst_pair (fun h => !g h) _
  refine ⟨rfl, ?_, ?_, ?_, ?_⟩
  · show (((DiscoveryServer.collectHostnames servers).map
        (fun h => (h, !joinFails h))).map Prod.fst).Nodup
    rw [hmapfst]
    exact collect_aux_nodup servers [] List.nodup_nil
  · intro h
    show h ∈ ((DiscoveryServer.collectHostnames servers).map
        (fun h => (h, !joinFails h))).map Prod.fst ↔ _
    rw [hmapfst]
    have := mem_collect_aux servers [] h
    simpa [DiscoveryServer.collectHostnames] using this
  · show ((DiscoveryServer.collectHostnames servers).map
          (fun h => (h, !joinFails h))).map Prod.fst
        = ((DiscoveryServer.collectHostnames servers).map
          (fun h => (h, !joinFails' h))).map Prod.fst
    rw [hmapfst, hmapfst]
  · intro h hm
    rw [show (DiscoveryServer.start (DiscoveryServer.create servers)
          joinFails).2.joinAttempts.map Prod.fst
        = DiscoveryServer.collectHostnames servers from hmapfst joinFails] at hm
    exact List.mem_map_of_mem (fun h => (h, !joinFails h)) hm

/-- C9: `stop()` is idempotent: a first call from the fully started state
closes both the receive and send sockets (in that order) and nulls both
references, and any subsequent call on a stopped state changes nothing,
closes nothing and raises no error. -/
theorem claim_C9 (st : DiscoveryState) :
    (st.socketOpen = true → st.responseSocketOpen = true →
      DiscoveryServer.stop st
        = ({ st with socketOpen := false, responseSocketOpen := false },
           ["socket", "responseSocket"]))
    ∧ DiscoveryServer.stop (DiscoveryServer.stop st).1
        = ((DiscoveryServer.stop st).1, []) := by
  obtain ⟨sv, mc, so, rs⟩ := st
  constructor
  · intro h1 h2
    subst h1; subst h2
    rfl
  · cases so <;> cases rs <;> rfl

/-- C9 witness: stopping the started demo server closes both sockets and
nulls both references. -/
theorem claim_C9_witness :
    DiscoveryServer.stop { demoState with socketOpen := true, responseSocketOpen := true }
      = ({ demoState with socketOpen := false, responseSocketOpen := false },
         ["socket", "responseSocket"]) := by
  have h := claim_C9 { demoState with socketOpen := true, responseSocketOpen := true }
  exact h.1 rfl rfl

/-- C1 counterexample: with two configured devices of which the first one's
MAC does not resolve, the startup loop logs the failure and calls
`process.exit(-1)`: the process terminates and the second device is never
attempted (its start event is absent, no discovery server starts), contrary
to the claim that the process does not terminate and every remaining device
still attempts to start. -/
theorem claim_C1_counterexample :
    (mainRun demoResolve false [cfgA, cfgB]).exited = true
    ∧ Ev.processExit (-1) ∈ (mainRun demoResolve false [cfgA, cfgB]).trace
    ∧ Ev.logError "aa:aa:aa:aa:aa:aa" ∈ (mainRun demoResolve false [cfgA, cfgB]).trace
    ∧ Ev.startDevice "bb:bb:bb:bb:bb:bb" "10.0.0.2"
        ∉ (mainRun demoResolve false [cfgA, cfgB]).trace
    ∧ (mainRun demoResolve false [cfgA, cfgB]).trace.filter isStartDiscoveryEv = [] := by
  decide

/-- C1 (amended): if a device's MAC address does not resolve to a live
network interface, the failure is reported (logged) and the whole process
exits with code -1; the devices before it in the configuration have
already been started, but no remaining configured device is attempted, and
neither the discovery server nor any proxy is started. -/
theorem claim_C1 (resolve : String → Option String) (u : Bool)
    (good : List OnvifConfig) (bad : OnvifConfig) (rest : List OnvifConfig)
    (hgood : ∀ cfg ∈ good, jsTruthyStr (resolve cfg.mac) = true)
    (hbad : jsTruthyStr (resolve bad.mac) = false) :
    mainRun resolve u (good ++ bad :: rest)
      = { servers := good.map (mkInfo resolve)
          proxies := good.flatMap (fun cfg => deviceProxies u cfg ((resolve cfg.mac).getD ""))
          trace := good.flatMap (fun cfg =>
              [Ev.startDevice cfg.mac ((resolve cfg.mac).getD ""), Ev.sleep 2000])
            ++ [Ev.logError bad.mac, Ev.processExit (-1)]
          exited := true } := by
  unfold mainRun
  rw [runLoop_exit resolve u good bad rest hgood hbad]
  rfl

/-- C1 witness: the amended claim applied to the concrete two-device
configuration whose first MAC does not resolve. -/
theorem claim_C1_witness :
    mainRun demoResolve false ([] ++ cfgA :: [cfgB])
      = { servers := ([] : List OnvifConfig).map (mkInfo demoResolve)
          proxies := ([] : List OnvifConfig).flatMap
            (fun cfg => deviceProxies false cfg ((demoResolve cfg.mac).getD ""))
          trace := ([] : List OnvifConfig).flatMap (fun cfg =>
              [Ev.startDevice cfg.mac ((demoResolve cfg.mac).getD ""), Ev.sleep 2000])
            ++ [Ev.logError cfgA.mac, Ev.processExit (-1)]
          exited := true } :=
  claim_C1 demoResolve false [] cfgA [cfgB] (by intro c hc; cases hc) (by decide)

/-- C7: when every configured MAC resolves and at least one device is
configured, the startup never exits, starts the devices sequentially in
configuration-file order with a fixed 2000 ms sleep inserted after each
start attempt and before the next one (visible in the literal trace
shape), and starts exactly one discovery server, positioned after every
device start, carrying the full device set in order. -/
theorem claim_C7 (resolve : String → Option String) (u : Bool)
    (configs : List OnvifConfig)
    (hall : ∀ cfg ∈ configs, jsTruthyStr (resolve cfg.mac) = true)
    (hne : configs ≠ []) :
    (mainRun resolve u configs).exited = false
    ∧ (mainRun resolve u configs).servers = configs.map (mkInfo resolve)
    ∧ (mainRun resolve u configs).trace
        = configs.flatMap (fun cfg =>
            [Ev.startDevice cfg.mac ((resolve cfg.mac).getD ""), Ev.sleep 2000])
          ++ [Ev.startDiscovery (configs.map (mkInfo resolve))]
          ++ (mainRun resolve u configs).proxies.map Ev.startProxy
    ∧ (mainRun resolve u configs).trace.filter isStartDiscoveryEv
        = [Ev.startDiscovery (configs.map (mkInfo resolve))] := by
  have hempty : (configs.map (mkInfo resolve)).isEmpty = false := by
    cases configs with
    | nil => exact absurd rfl hne
    | cons a b => rfl
  unfold mainRun
  rw [runLoop_ok resolve u configs hall]
  refine ⟨rfl, rfl, ?_, ?_⟩
  · simp [hempty, List.append_assoc]
  · simp only [hempty, Bool.false_eq_true, if_false, List.filter_append,
      filter_blocks_eq_nil, filter_proxyEvs_eq_nil, List.nil_append, List.append_nil]
    simp [isStartDiscoveryEv, List.filter_cons]

/-- C7 witness: with both demo MACs resolving, the startup does not exit
and there is exactly one discovery-start event, carrying both devices. -/
theorem claim_C7_witness :
    (mainRun demoResolveAll false [cfgA, cfgB]).exited = false
    ∧ (mainRun demoResolveAll false [cfgA, cfgB]).trace.filter isStartDiscoveryEv
        = [Ev.startDiscovery ([cfgA, cfgB].map (mkInfo demoResolveAll))] := by
  have h := claim_C7 demoResolveAll false [cfgA, cfgB] (by decide) (by decide)
  exact ⟨h.1, h.2.2.2⟩

theorem jsTruthyNat_iff (o : Option Nat) : jsTruthyNat o = true ↔ o.getD 0 ≠ 0 := by
  cases o <;> simp [jsTruthyNat]

/-- The RTSP relay route main.js would push for a device resolved at
`host`. -/
def rtspRouteOf (cfg : OnvifConfig) (host : String) : Proxy :=
  { sourceHostname := host, sourcePort := cfg.ports.rtsp.getD 0
    targetHostname := cfg.target.hostname, targetPort := cfg.target.ports.rtsp.getD 0 }

/-- The snapshot relay route main.js would push for a device resolved at
`host`. -/
def snapshotRouteOf (cfg : OnvifConfig) (host : String) : Proxy :=
  { sourceHostname := host, sourcePort := cfg.ports.snapshot.getD 0
    targetHostname := cfg.target.hostname, targetPort := cfg.target.ports.snapshot.getD 0 }

/-- The per-device proxy pushes, expressed with the two named routes. -/
theorem deviceProxies_eq (u : Bool) (cfg : OnvifConfig) (host : String) :
    deviceProxies u cfg host
      = if u then []
        else (if jsTruthyNat cfg.ports.rtsp && jsTruthyNat cfg.target.ports.rtsp
              then [rtspRouteOf cfg host] else [])
          ++ (if jsTruthyNat cfg.ports.snapshot && jsTruthyNat cfg.target.ports.snapshot
              then [snapshotRouteOf cfg host] else []) := rfl

/-- The RTSP and snapshot routes of one device differ whenever the
truthiness of the port pair differs on either side. -/
theorem rtsp_snapshot_routes_ne (cfg : OnvifConfig) (host : String)
    (h : jsTruthyNat cfg.ports.rtsp ≠ jsTruthyNat cfg.ports.snapshot
       ∨ jsTruthyNat cfg.target.ports.rtsp ≠ jsTruthyNat cfg.target.ports.snapshot) :
    rtspRouteOf cfg host ≠ snapshotRouteOf cfg host := by
  intro he
  have hs : cfg.ports.rtsp.getD 0 = cfg.ports.snapshot.getD 0 := by
    have := congrArg Proxy.sourcePort he
    simpa [rtspRouteOf, snapshotRouteOf] using this
  have ht : cfg.target.ports.rtsp.getD 0 = cfg.target.ports.snapshot.getD 0 := by
    have := congrArg Proxy.targetPort he
    simpa [rtspRouteOf, snapshotRouteOf] using this
  rcases h with h | h
  · apply h
    rw [Bool.eq_iff_iff, jsTruthyNat_iff, jsTruthyNat_iff, hs]
  · apply h
    rw [Bool.eq_iff_iff, jsTruthyNat_iff, jsTruthyNat_iff, ht]

/-- An RTSP route is in the per-device route list iff direct-URL mode is
off and both RTSP ports are truthy. -/
theorem mem_deviceProxies_rtsp (u : Bool) (cfg : OnvifConfig) (host : String) :
    rtspRouteOf cfg host ∈ deviceProxies u cfg host
      ↔ u = false ∧ jsTruthyNat cfg.ports.rtsp = true
          ∧ jsTruthyNat cfg.target.ports.rtsp = true := by
  cases u with
  | true => simp [deviceProxies_eq]
  | false =>
    by_cases c1 : jsTruthyNat cfg.ports.rtsp = true <;>
      by_cases c2 : jsTruthyNat cfg.target.ports.rtsp = true
    · simp [deviceProxies_eq, c1, c2]
    · rw [Bool.not_eq_true] at c2
      by_cases c34 : (jsTruthyNat cfg.ports.snapshot
          && jsTruthyNat cfg.target.ports.snapshot) = true
      · have hc : jsTruthyNat cfg.ports.snapshot = true
            ∧ jsTruthyNat cfg.target.ports.snapshot = true := by simpa using c34
        have hne := rtsp_snapshot_routes_ne cfg host (Or.inr (by rw [c2, hc.2]; decide))
        simp [deviceProxies_eq, c1, c2, c34, hne]
      · simp [deviceProxies_eq, c1, c2, c34]
    · rw [Bool.not_eq_true] at c1
      by_cases c34 : (jsTruthyNat cfg.ports.snapshot
          && jsTruthyNat cfg.target.ports.snapshot) = true
      · have hc : jsTruthyNat cfg.ports.snapshot = true
            ∧ jsTruthyNat cfg.target.ports.snapshot = true := by simpa using c34
        have hne := rtsp_snapshot_routes_ne cfg host (Or.inl (by rw [c1, hc.1]; decide))
        simp [deviceProxies_eq, c1, c34, hne]
      · simp [deviceProxies_eq, c1, c34]
    · rw [Bool.not_eq_true] at c1 c2
      by_cases c34 : (jsTruthyNat cfg.ports.snapshot
          && jsTruthyNat cfg.target.ports.snapshot) = true
      · have hc : jsTruthyNat cfg.ports.snapshot = true
            ∧ jsTruthyNat cfg.target.ports.snapshot = true := by simpa using c34
        have hne := rtsp_snapshot_routes_ne cfg host (Or.inl (by rw [c1, hc.1]; decide))
        simp [deviceProxies_eq, c1, c34, hne]
      · simp [deviceProxies_eq, c1, c34]

/-- A snapshot route is in the per-device route list iff direct-URL mode is
off and both snapshot ports are truthy. -/
theorem mem_deviceProxies_snapshot (u : Bool) (cfg : OnvifConfig) (host : String) :
    snapshotRouteOf cfg host ∈ deviceProxies u cfg host
      ↔ u = false ∧ jsTruthyNat cfg.ports.snapshot = true
          ∧ jsTruthyNat cfg.target.ports.snapshot = true := by
  cases u with
  | true => simp [deviceProxies_eq]
  | false =>
    by_cases c3 : jsTruthyNat cfg.ports.snapshot = true <;>
      by_cases c4 : jsTruthyNat cfg.target.ports.snapshot = true
    · simp [deviceProxies_eq, c3, c4]
    · rw [Bool.not_eq_true] at c4
      by_cases c12 : (jsTruthyNat cfg.ports.rtsp
          && jsTruthyNat cfg.target.ports.rtsp) = true
      · have hc : jsTruthyNat cfg.ports.rtsp = true
            ∧ jsTruthyNat cfg.target.ports.rtsp = true := by simpa using c12
        have hne := (rtsp_snapshot_routes_ne cfg host (Or.inr (by rw [hc.2, c4]; decide))).symm
        simp [deviceProxies_eq, c3, c4, c12, hne]
      · simp [deviceProxies_eq, c3, c4, c12]
    · rw [Bool.not_eq_true] at c3
      by_cases c12 : (jsTruthyNat cfg.ports.rtsp
          && jsTruthyNat cfg.target.ports.rtsp) = true
      · have hc : jsTruthyNat cfg.ports.rtsp = true
            ∧ jsTruthyNat cfg.target.ports.rtsp = true := by simpa using c12
        have hne := (rtsp_snapshot_routes_ne cfg host (Or.inl (by rw [hc.1, c3]; decide))).symm
        simp [deviceProxies_eq, c3, c12, hne]
      · simp [deviceProxies_eq, c3, c12]
    · rw [Bool.not_eq_true] at c3 c4
      by_cases c12 : (jsTruthyNat cfg.ports.rtsp
          && jsTruthyNat cfg.target.ports.rtsp) = true
      · have hc : jsTruthyNat cfg.ports.rtsp = true
            ∧ jsTruthyNat cfg.target.ports.rtsp = true := by simpa using c12
        have hne := (rtsp_snapshot_routes_ne cfg host (Or.inl (by rw [hc.1, c3]; decide))).symm
        simp [deviceProxies_eq, c3, c12, hne]
      · simp [deviceProxies_eq, c3, c12]

/-- C10: in non-direct-URL mode, a relay route for a device's RTSP
(respectively snapshot) traffic is requested if and only if both the
device's own proxy port and the target's corresponding port are configured
truthy; if either is absent no route of that kind is requested for that
device; in direct-URL mode no routes are requested at all; and the whole
run's route list is exactly the per-device route lists in order (all MACs
resolving assumed for the whole-run equation). -/
theorem claim_C10 (resolve : String → Option String) (u : Bool)
    (configs : List OnvifConfig)
    (hall : ∀ cfg ∈ configs, jsTruthyStr (resolve cfg.mac) = true) :
    (∀ cfg host,
        (rtspRouteOf cfg host ∈ deviceProxies u cfg host
          ↔ u = false ∧ jsTruthyNat cfg.ports.rtsp = true
              ∧ jsTruthyNat cfg.target.ports.rtsp = true)
      ∧ (snapshotRouteOf cfg host ∈ deviceProxies u cfg host
          ↔ u = false ∧ jsTruthyNat cfg.ports.snapshot = true
              ∧ jsTruthyNat cfg.target.ports.snapshot = true))
    ∧ (mainRun resolve true configs).proxies = []
    ∧ (mainRun resolve u configs).proxies
        = configs.flatMap (fun cfg => deviceProxies u cfg ((resolve cfg.mac).getD "")) := by
  refine ⟨fun cfg host =>
    ⟨mem_deviceProxies_rtsp u cfg host, mem_deviceProxies_snapshot u cfg host⟩, ?_, ?_⟩
  · unfold mainRun
    by_cases hex : (runLoop resolve true configs).2.2.2 = true <;>
      simp [hex, runLoop_direct_proxies]
  · unfold mainRun
    rw [runLoop_ok resolve u configs hall]
    by_cases he : (configs.map (mkInfo resolve)).isEmpty = true <;> simp [he]

/-- C10 witness: the demo device with all four ports configured gets its
RTSP route, direct mode yields no routes, and the run's route list is the
ordered concatenation of the per-device lists. -/
theorem claim_C10_witness :
    rtspRouteOf cfgB "10.0.0.2" ∈ deviceProxies false cfgB "10.0.0.2"
    ∧ (mainRun demoResolveAll true [cfgA, cfgB]).proxies = []
    ∧ (mainRun demoResolveAll false [cfgA, cfgB]).proxies
        = [cfgA, cfgB].flatMap
            (fun cfg => deviceProxies false cfg ((demoResolveAll cfg.mac).getD "")) := by
  have h := claim_C10 demoResolveAll false [cfgA, cfgB] (by decide)
  exact ⟨((h.1 cfgB "10.0.0.2").1).mpr ⟨rfl, by decide, by decide⟩, h.2.1, h.2.2⟩

/-- A demo join-failure oracle: joining on srvA's interface fails. -/
def demoFails : String → Bool := fun h => h == "192.168.1.10"

/-- C8 witness: on the two-device demo server with srvA's join failing,
the socket is bound to 3702, the failing IP is still attempted (logged as
a failed pair) and the other IP's join attempt is not prevented. -/
theorem claim_C8_witness :
    (DiscoveryServer.start (DiscoveryServer.create [srvA, srvB]) demoFails).2.boundPort = 3702
    ∧ ("192.168.1.10", false)
        ∈ (DiscoveryServer.start (DiscoveryServer.create [srvA, srvB]) demoFails).2.joinAttempts
    ∧ ("192.168.1.11", true)
        ∈ (DiscoveryServer.start (DiscoveryServer.create [srvA, srvB]) demoFails).2.joinAttempts := by
  have h := claim_C8 [srvA, srvB] demoFails demoFails
  refine ⟨h.1, ?_, ?_⟩
  · exact h.2.2.2.2 "192.168.1.10"
      ((h.2.2.1 "192.168.1.10").mpr ⟨by decide, srvA, by decide, rfl⟩)
  · exact h.2.2.2.2 "192.168.1.11"
      ((h.2.2.1 "192.168.1.11").mpr ⟨by decide, srvB, by decide, rfl⟩)
